import Mathlib

/-!
Verification of the CONTES word-embedding orchestration layer
(`module_word2vec/main_word2vec.py`).

The file shallowly embeds the orchestration code: the corpus reader
(`readCorpus`, `readCorpusFiles`), the option table built in
`Word2Vec.__init__` together with the `optparse` behaviour it exercises
(`parseArgs`), the trainer dispatcher (`buildVector`), the three output
writers (`writeJSON`, `writeTxt`, `writeBin`) and the `run` pipeline.
External training libraries (gensim, fastText) are opaque: a trained model
is a constructor recording which external routine produced it and with which
arguments, and the token-to-vector mapping a model yields is an arbitrary
function supplied to the embedding.  File handles and their lifetimes are
made observable through an event trace, and Python exceptions through an
`Except` result.
-/

namespace Contes

/-- Whitespace removed by Python `str.strip()` with no argument, over the
ASCII range handled by this tool (space, tab, newline, carriage return,
vertical tab, form feed). -/
def isPySpace (c : Char) : Bool :=
  c = ' ' || c = '\t' || c = '\n' || c = '\r' || c = '\x0b' || c = '\x0c'

/-- Remove leading and trailing whitespace from a character list. -/
def stripChars (l : List Char) : List Char :=
  (l.dropWhile isPySpace).rdropWhile isPySpace

/-- Python `line.strip()`. -/
def pyStrip (s : String) : String :=
  String.mk (stripChars s.data)

/-- Python `s.lower()` (ASCII, as used on the method names). -/
def pyLower (s : String) : String :=
  String.mk (s.data.map Char.toLower)

/-- Does `needle` occur as a contiguous run at the front of `hay`? -/
def matchesAt : List Char → List Char → Bool
  | [], _ => true
  | _ :: _, [] => false
  | a :: as, b :: bs => a = b && matchesAt as bs

/-- Does `needle` occur somewhere inside `hay`? -/
def hasSub (needle : List Char) : List Char → Bool
  | [] => needle.isEmpty
  | c :: rest => matchesAt needle (c :: rest) || hasSub needle rest

/-- Python `needle in hay` on strings (substring containment). -/
def strContains (hay needle : String) : Bool :=
  hasSub needle.data hay.data

/-- Python `s.startswith(pre)`. -/
def pyStartsWith (s pre : String) : Bool :=
  matchesAt pre.data s.data

/-- Python `s.endswith(suf)`. -/
def pyEndsWith (s suf : String) : Bool :=
  matchesAt suf.data.reverse s.data.reverse

/-! ## The corpus reader

`Word2Vec.readCorpus` iterates the lines of a stream, keeping the mutable
state `(self.corpus, current_sentence)`.  `readCorpusLoop` is the `for`
loop; `readCorpus` adds the flush of a sentence still in progress at end of
stream.  `self.corpus` is threaded as the first argument. -/

/-- The `for line in f` loop of `Word2Vec.readCorpus`: strip the line; a
blank line flushes a non-empty current sentence, any other line is appended
to the current sentence as one token. -/
def readCorpusLoop : List (List String) → List String → List String →
    List (List String) × List String
  | corpus, cur, [] => (corpus, cur)
  | corpus, cur, line :: rest =>
    if pyStrip line = "" then
      if cur.length > 0 then readCorpusLoop (corpus ++ [cur]) [] rest
      else readCorpusLoop corpus cur rest
    else readCorpusLoop corpus (cur ++ [pyStrip line]) rest

/-- The trailing `if len(current_sentence) > 0: self.corpus.append(...)` of
`Word2Vec.readCorpus`, applied to the loop's final state. -/
def flushSentence (st : List (List String) × List String) :
    List (List String) :=
  if st.2.length > 0 then st.1 ++ [st.2] else st.1

/-- `Word2Vec.readCorpus`: run the loop over the lines with a fresh
`current_sentence`, then append a sentence still in progress at end of
stream. -/
def readCorpus (corpus : List (List String)) (lines : List String) :
    List (List String) :=
  flushSentence (readCorpusLoop corpus [] lines)

/-! ## Configuration and option parsing

`Word2Vec.__init__` declares the option table; `parse_args` is `optparse`.
The embedding records each flag's destination and value kind exactly as
declared in the source — in particular `--fastTextHome` is declared with
`type='int'` although its help text calls it a path, so its destination
holds an integer. -/

/-- Python exceptions the orchestration layer can surface. -/
inductive PyError where
  | optparseError (msg : String)
  | attributeError (attr : String)
  | typeError (msg : String)
  | ioError (msg : String)
  deriving DecidableEq, Repr

/-- The configuration record `parse_args` fills in, with the destinations
and defaults of `Word2Vec.__init__`.  `fastTextHome : Option Int` mirrors
the source's `type='int'` declaration for `--fastTextHome`. -/
structure Options where
  json : Option String
  txt : Option String
  bin : Option String
  minCount : Int
  vectSize : Int
  workerNum : Int
  skipGram : Bool
  windowSize : Int
  numIteration : Int
  seed : Int
  method : Option String
  minNgram : Int
  maxNgram : Int
  bucket : Int
  fastTextHome : Option Int
  deriving DecidableEq, Repr

/-- The defaults given in `Word2Vec.__init__`. -/
def defaultOptions : Options :=
  { json := none, txt := none, bin := none, minCount := 0, vectSize := 300,
    workerNum := 2, skipGram := false, windowSize := 2, numIteration := 5,
    seed := 1, method := none, minNgram := 3, maxNgram := 6,
    bucket := 2000000, fastTextHome := none }

/-- Value kind of an option: string-valued, integer-valued, or the
`store_true` flag. -/
inductive OptKind where
  | str
  | int
  | flag
  deriving DecidableEq, Repr

/-- The option table of `Word2Vec.__init__`, in declaration order.
`--method` is declared without a type, so optparse treats it as a string;
`--fastTextHome` is declared `type='int'`. -/
def optTable : List (String × OptKind) :=
  [("--json", OptKind.str), ("--txt", OptKind.str), ("--bin", OptKind.str),
   ("--min-count", OptKind.int), ("--vector-size", OptKind.int),
   ("--workers", OptKind.int), ("--skip-gram", OptKind.flag),
   ("--window-size", OptKind.int), ("--iterations", OptKind.int),
   ("--seed", OptKind.int), ("--method", OptKind.str),
   ("--minNgram", OptKind.int), ("--maxNgram", OptKind.int),
   ("--bucket", OptKind.int), ("--fastTextHome", OptKind.int)]

def lookupOpt (flagName : String) : Option OptKind :=
  (optTable.find? (fun e => e.1 == flagName)).map Prod.snd

def digitsToNat (l : List Char) : Nat :=
  l.foldl (fun n c => 10 * n + (c.toNat - 48)) 0

/-- Python `int(string)` on the decimal forms this program can receive:
surrounding whitespace allowed, an optional sign, then at least one
digit. -/
def pyInt (s : String) : Option Int :=
  match (pyStrip s).data with
  | [] => none
  | c :: cs =>
    if c = '-' then
      if !cs.isEmpty && cs.all Char.isDigit then some (-(digitsToNat cs : Int))
      else none
    else if c = '+' then
      if !cs.isEmpty && cs.all Char.isDigit then some (digitsToNat cs : Int)
      else none
    else
      if (c :: cs).all Char.isDigit then some (digitsToNat (c :: cs) : Int)
      else none

/-- Store a parsed string value into its destination. -/
def storeStr (o : Options) (flagName v : String) : Options :=
  if flagName = "--json" then { o with json := some v }
  else if flagName = "--txt" then { o with txt := some v }
  else if flagName = "--bin" then { o with bin := some v }
  else if flagName = "--method" then { o with method := some v }
  else o

/-- Store a parsed integer value into its destination. -/
def storeInt (o : Options) (flagName : String) (n : Int) : Options :=
  if flagName = "--min-count" then { o with minCount := n }
  else if flagName = "--vector-size" then { o with vectSize := n }
  else if flagName = "--workers" then { o with workerNum := n }
  else if flagName = "--window-size" then { o with windowSize := n }
  else if flagName = "--iterations" then { o with numIteration := n }
  else if flagName = "--seed" then { o with seed := n }
  else if flagName = "--minNgram" then { o with minNgram := n }
  else if flagName = "--maxNgram" then { o with maxNgram := n }
  else if flagName = "--bucket" then { o with bucket := n }
  else if flagName = "--fastTextHome" then { o with fastTextHome := some n }
  else o

/-- The optparse processing loop over the argument vector, for the forms
this program exercises: a long option consumes the following argument as
its value (converted per its declared type), the `store_true` flag consumes
nothing, anything else is a positional argument; unknown options, missing
values and invalid integers end in a usage error. -/
def parseLoop : Options → List String → List String →
    Except PyError (Options × List String)
  | o, pos, [] => Except.ok (o, pos)
  | o, pos, a :: rest =>
    if pyStartsWith a "--" then
      match lookupOpt a with
      | none => Except.error (PyError.optparseError ("no such option: " ++ a))
      | some OptKind.flag =>
        -- the only store_true option is --skip-gram (dest skipGram)
        parseLoop { o with skipGram := true } pos rest
      | some OptKind.str =>
        match rest with
        | [] => Except.error (PyError.optparseError
            ("option " ++ a ++ " requires an argument"))
        | v :: rest2 => parseLoop (storeStr o a v) pos rest2
      | some OptKind.int =>
        match rest with
        | [] => Except.error (PyError.optparseError
            ("option " ++ a ++ " requires an argument"))
        | v :: rest2 =>
          match pyInt v with
          | some n => parseLoop (storeInt o a n) pos rest2
          | none => Except.error (PyError.optparseError
              ("option " ++ a ++ ": invalid integer value: " ++ v))
    else
      parseLoop o (pos ++ [a]) rest

/-- `self.parse_args()` in `Word2Vec.run`: options start from the declared
defaults; the positional arguments are the corpus file names. -/
def parseArgs (argv : List String) : Except PyError (Options × List String) :=
  parseLoop defaultOptions [] argv

/-! ## The trainer dispatcher -/

/-- The hyperparameters `buildVector` works with.  `learningRate` and
`subSampling` are the float constants 0.05 and 0.001 of the source, kept as
exact rationals (they are only ever passed through, never computed with). -/
structure TrainParams where
  workerNum : Int
  minCount : Int
  vectSize : Int
  skipGram : Bool
  windowSize : Int
  learningRate : ℚ
  numIteration : Int
  negativeSampling : Int
  subSampling : ℚ
  seed : Int
  minNgram : Int
  maxNgram : Int
  bucket : Int
  fastTextHome : Option Int
  deriving DecidableEq, Repr

/-- An opaque trained-model handle: which external routine produced it, on
which inputs.  The externals are unmodifiable collaborators consumed as
black boxes, so a handle is identified by the invocation that made it.
`gensimWord2Vec` is `gensim.models.Word2Vec(...)`; `gensimFastText` is the
`FastText(...)` constructor followed by `build_vocab` and `train` on the
corpus; `fastTextOpt` is the model returned by `FastText_OPT.train(...)`. -/
inductive Model where
  | gensimWord2Vec (sentences : List (List String)) (p : TrainParams)
  | gensimFastText (sentences : List (List String)) (p : TrainParams)
  | fastTextOpt (ftPath : Option Int) (corpusFile : List (List String))
      (p : TrainParams)
  deriving DecidableEq, Repr

/-- The vector space of terms: the token-to-vector association, in the
external vocabulary's iteration order. -/
abbrev VSTmap := List (String × List ℚ)

/-- The mutable attributes of the `Word2Vec` object: `self.corpus`
(initialised to `[]` in `__init__`), and `self.vst_model` / `self.VST`,
which do not exist until a training branch first assigns them (reading them
before that raises AttributeError). -/
structure W2VState where
  corpus : List (List String)
  vst_model : Option Model
  VST : Option VSTmap
  deriving DecidableEq, Repr

def initState : W2VState := { corpus := [], vst_model := none, VST := none }

/-- Which training branches a `buildVector` call executed, in order. -/
inductive Branch where
  | word2vec
  | fasttext
  | fasttextOptimized
  deriving DecidableEq, Repr

/-- The guard pattern of each branch:
`method != None and needle in method.lower()`. -/
def methodHas (method : Option String) (needle : String) : Bool :=
  match method with
  | none => false
  | some m => strContains (pyLower m) needle

/-- `Word2Vec.buildVector`.  The three training branches are three separate,
non-exclusive `if` statements evaluated in order.  `wv` stands for the
external mapping from a trained model to its token→vector dictionary (the
`dict((k, ...) for k in self.vst_model.wv.vocab.keys())` comprehension).
In the third branch the source calls `FastText_OPT.train(...)` and never
binds its result — the trained optimized model is discarded — after which
`self.VST` is rebuilt from whatever model `self.vst_model` currently holds
(AttributeError if no earlier branch assigned one).  The returned list
records which branches ran, in order. -/
def buildVector (st : W2VState) (p : TrainParams) (method : Option String)
    (wv : Model → VSTmap) : Except PyError (W2VState × List Branch) :=
  let r1 :=
    if methodHas method "word2vec" then
      let m := Model.gensimWord2Vec st.corpus p
      ({ st with vst_model := some m, VST := some (wv m) }, [Branch.word2vec])
    else (st, ([] : List Branch))
  let r2 :=
    if methodHas method "fasttext" then
      let m := Model.gensimFastText r1.1.corpus p
      ({ r1.1 with vst_model := some m, VST := some (wv m) },
       r1.2 ++ [Branch.fasttext])
    else r1
  if methodHas method "fasttext" && methodHas method "optimized" then
    -- FastText_OPT.train(ft_path=fastTextHome, corpus_file=self.corpus, ...)
    -- returns a model the source never binds:
    let _discarded := Model.fastTextOpt p.fastTextHome r2.1.corpus p
    match r2.1.vst_model with
    | none => Except.error (PyError.attributeError "vst_model")
    | some m => Except.ok ({ r2.1 with VST := some (wv m) },
        r2.2 ++ [Branch.fasttextOptimized])
  else Except.ok r2

/-! ## Output writers and the corpus-file reader, with observable file
events -/

/-- What a `write` call hands to a file object.  `jsonBytes` stands for the
bytes value `json.dumps(self.VST).encode('UTF-8')`; `reprOfVec` for
`str(v)`, the textual rendition of a vector. -/
inductive PyData where
  | str (s : String)
  | reprOfVec (v : List ℚ)
  | jsonBytes (vst : VSTmap)
  deriving DecidableEq, Repr

/-- Observable file-handle and persistence events of a run. -/
inductive FileEvent where
  | openRead (name : String)
  | openWrite (name : String)
  | openGzipWrite (name : String)
  | write (name : String) (data : PyData)
  | close (name : String)
  | modelSave (name : String)
  deriving DecidableEq, Repr

/-- `Word2Vec.writeBin`: return at once when no `--bin` path was given,
else `self.vst_model.save(fileName)` (AttributeError when no branch ever
assigned a model). -/
def writeBin (st : W2VState) (fileName : Option String) :
    List FileEvent × Except PyError Unit :=
  match fileName with
  | none => ([], Except.ok ())
  | some fn =>
    match st.vst_model with
    | none => ([], Except.error (PyError.attributeError "vst_model"))
    | some _ => ([FileEvent.modelSave fn], Except.ok ())

/-- `Word2Vec.writeJSON`.  A path ending in `.gz` is opened with
`gzip.open(fileName, 'w')`, a binary-mode handle; any other path with
`open(fileName, 'w')`, a text-mode handle.  The single write hands BYTES
(`json.dumps(self.VST).encode('UTF-8')`) to the handle: the binary gzip
handle accepts them, a text-mode handle raises TypeError.  There is no
try/finally, so on any exception after the open the `f.close()` line is
never reached. -/
def writeJSON (st : W2VState) (fileName : Option String) :
    List FileEvent × Except PyError Unit :=
  match fileName with
  | none => ([], Except.ok ())
  | some fn =>
    let openEv := if pyEndsWith fn ".gz" then FileEvent.openGzipWrite fn
      else FileEvent.openWrite fn
    match st.VST with
    | none => ([openEv], Except.error (PyError.attributeError "VST"))
    | some vst =>
      if pyEndsWith fn ".gz" then
        ([openEv, FileEvent.write fn (PyData.jsonBytes vst),
          FileEvent.close fn], Except.ok ())
      else
        ([openEv],
         Except.error (PyError.typeError
           "write() argument must be str, not bytes"))

/-- `Word2Vec.writeTxt`: open the file in text mode, write
token, TAB, `str(vector)`, NEWLINE for each vocabulary entry, close.
`self.VST` is first read after the open, so a missing VST raises
AttributeError with the handle already open and no close. -/
def writeTxt (st : W2VState) (fileName : Option String) :
    List FileEvent × Except PyError Unit :=
  match fileName with
  | none => ([], Except.ok ())
  | some fn =>
    match st.VST with
    | none => ([FileEvent.openWrite fn],
        Except.error (PyError.attributeError "VST"))
    | some vst =>
      ([FileEvent.openWrite fn] ++
        vst.flatMap (fun kv =>
          [FileEvent.write fn (PyData.str kv.1),
           FileEvent.write fn (PyData.str "\t"),
           FileEvent.write fn (PyData.reprOfVec kv.2),
           FileEvent.write fn (PyData.str "\n")]) ++
        [FileEvent.close fn], Except.ok ())

/-- A readable input stream: the lines it delivers and, optionally, an I/O
error its iteration raises after delivering them (before `readCorpus`
reaches its trailing flush). -/
structure PFile where
  lines : List String
  readError : Option PyError
  deriving DecidableEq, Repr

/-- `Word2Vec.readCorpusFiles`: with no file names, read standard input
(never opened or closed by this code); otherwise, for each name in order,
`open` the file, read it into the corpus, `close` it.  There is no
`with`/`finally`: an error raised while reading propagates with the handle
still open, and no further file is processed. -/
def readCorpusFiles (st : W2VState) (stdinF : PFile) (fs : String → PFile) :
    List String → List FileEvent × Except PyError W2VState
  | [] =>
    match stdinF.readError with
    | some e => ([], Except.error e)
    | none =>
      ([], Except.ok { st with corpus := readCorpus st.corpus stdinF.lines })
  | fn :: rest =>
    match (fs fn).readError with
    | some e => ([FileEvent.openRead fn], Except.error e)
    | none =>
      let st2 := { st with corpus := readCorpus st.corpus (fs fn).lines }
      let r := readCorpusFiles st2 stdinF fs rest
      ([FileEvent.openRead fn, FileEvent.close fn] ++ r.1, r.2)

/-! ## The run pipeline -/

/-- The keyword arguments `Word2Vec.run` passes to `buildVector`: every
parsed option except `learningRate`, `negativeSampling` and `subSampling`,
which keep `buildVector`'s defaults 0.05, 5 and 0.001. -/
def paramsOfOptions (o : Options) : TrainParams :=
  { workerNum := o.workerNum, minCount := o.minCount, vectSize := o.vectSize,
    skipGram := o.skipGram, windowSize := o.windowSize,
    learningRate := 1 / 20, numIteration := o.numIteration,
    negativeSampling := 5, subSampling := 1 / 1000, seed := o.seed,
    minNgram := o.minNgram, maxNgram := o.maxNgram, bucket := o.bucket,
    fastTextHome := o.fastTextHome }

/-- The three writer calls at the end of `Word2Vec.run`, in source order;
an exception in one aborts the ones after it. -/
def runWriters (st : W2VState) (jsonP txtP binP : Option String) :
    List FileEvent × Except PyError Unit :=
  let r1 := writeJSON st jsonP
  match r1.2 with
  | Except.error e => (r1.1, Except.error e)
  | Except.ok _ =>
    let r2 := writeTxt st txtP
    match r2.2 with
    | Except.error e => (r1.1 ++ r2.1, Except.error e)
    | Except.ok _ =>
      let r3 := writeBin st binP
      (r1.1 ++ r2.1 ++ r3.1, r3.2)

/-- `Word2Vec.run`: parse the arguments, read the corpus from the
positional file names (or standard input), train according to `--method`,
then run the three writers. -/
def run (argv : List String) (stdinF : PFile) (fs : String → PFile)
    (wv : Model → VSTmap) : List FileEvent × Except PyError W2VState :=
  match parseArgs argv with
  | Except.error e => ([], Except.error e)
  | Except.ok (opts, args) =>
    let r1 := readCorpusFiles initState stdinF fs args
    match r1.2 with
    | Except.error e => (r1.1, Except.error e)
    | Except.ok st1 =>
      match buildVector st1 (paramsOfOptions opts) opts.method wv with
      | Except.error e => (r1.1, Except.error e)
      | Except.ok (st2, _) =>
        let r2 := runWriters st2 opts.json opts.txt opts.bin
        match r2.2 with
        | Except.error e => (r1.1 ++ r2.1, Except.error e)
        | Except.ok _ => (r1.1 ++ r2.1, Except.ok st2)

/-! ## Concrete fixtures used by witnesses and counterexamples -/

/-- The hyperparameters of a run that passes no training options. -/
def demoParams : TrainParams := paramsOfOptions defaultOptions

/-- A Word2Vec object state right after reading a two-sentence corpus. -/
def demoCorpusState : W2VState :=
  { corpus := [["alpha"], ["beta"]], vst_model := none, VST := none }

/-- A concrete stand-in for the external token-to-vector mapping. -/
def demoWv : Model → VSTmap :=
  fun _ => [("alpha", [1, 2]), ("beta", [3, 4])]

/-- A state whose vector space holds one token, used to drive the JSON
writer. -/
def jsonOnlyState : W2VState :=
  { corpus := [], vst_model := none, VST := some [("alpha", [1, 2])] }

/-- A state in which training has happened: both `self.vst_model` and
`self.VST` exist. -/
def demoTrainedState : W2VState :=
  { corpus := [["alpha"], ["beta"]],
    vst_model := some (Model.gensimWord2Vec [["alpha"], ["beta"]] demoParams),
    VST := some [("alpha", [1, 2]), ("beta", [3, 4])] }

/-! ### Reader lemmas -/

theorem readCorpusLoop_append (xs : List String) : ∀ (ys : List String)
    (corpus : List (List String)) (cur : List String),
    readCorpusLoop corpus cur (xs ++ ys) =
      readCorpusLoop (readCorpusLoop corpus cur xs).1
        (readCorpusLoop corpus cur xs).2 ys := by
  induction xs with
  | nil => intro ys corpus cur; simp [readCorpusLoop]
  | cons line rest ih =>
    intro ys corpus cur
    by_cases h1 : pyStrip line = ""
    · by_cases h2 : cur.length > 0
      · simp [readCorpusLoop, h1, h2, ih]
      · simp [readCorpusLoop, h1, h2, ih]
    · simp [readCorpusLoop, h1, ih]

theorem readCorpusLoop_factor (lines : List String) :
    ∀ (corpus : List (List String)) (cur : List String),
    readCorpusLoop corpus cur lines =
      (corpus ++ (readCorpusLoop [] cur lines).1,
       (readCorpusLoop [] cur lines).2) := by
  induction lines with
  | nil => intro corpus cur; simp [readCorpusLoop]
  | cons line rest ih =>
    intro corpus cur
    by_cases h1 : pyStrip line = ""
    · by_cases h2 : cur.length > 0
      · simp only [readCorpusLoop, h1, if_true, h2, if_pos]
        rw [ih (corpus ++ [cur]) [], ih ([] ++ [cur]) []]
        simp
      · simp only [readCorpusLoop, h1, if_true, h2, if_false]
        exact ih corpus cur
    · simp only [readCorpusLoop, h1, if_false]
      exact ih corpus (cur ++ [pyStrip line])

/-- A fresh `readCorpus` call only appends to the corpus it is given. -/
theorem readCorpus_factor (corpus : List (List String)) (lines : List String) :
    readCorpus corpus lines = corpus ++ readCorpus [] lines := by
  unfold readCorpus flushSentence
  rw [readCorpusLoop_factor lines corpus []]
  by_cases h : (readCorpusLoop [] [] lines).2.length > 0
  · simp [h]
  · simp [h]

/-- A run of non-blank lines only accumulates the stripped lines onto the
current sentence. -/
theorem readCorpusLoop_nonblank (A : List String) : ∀ (rest : List String)
    (corpus : List (List String)) (cur : List String),
    (∀ l ∈ A, pyStrip l ≠ "") →
    readCorpusLoop corpus cur (A ++ rest) =
      readCorpusLoop corpus (cur ++ A.map pyStrip) rest := by
  induction A with
  | nil => intro rest corpus cur _; simp
  | cons line A ih =>
    intro rest corpus cur h
    have h1 : pyStrip line ≠ "" := h line (by simp)
    simp only [List.cons_append, readCorpusLoop, h1, if_false, List.append_eq]
    rw [ih rest corpus (cur ++ [pyStrip line]) (fun l hl => h l (by simp [hl]))]
    simp

/-- Blank lines leave an empty current sentence and the corpus untouched. -/
theorem readCorpusLoop_blank (lines : List String) :
    ∀ (corpus : List (List String)), (∀ l ∈ lines, pyStrip l = "") →
    readCorpusLoop corpus [] lines = (corpus, []) := by
  induction lines with
  | nil => intro corpus _; simp [readCorpusLoop]
  | cons line rest ih =>
    intro corpus h
    have h1 : pyStrip line = "" := h line (by simp)
    simp only [readCorpusLoop, h1, if_true, List.length_nil, gt_iff_lt,
      lt_self_iff_false, if_false]
    exact ih corpus (fun l hl => h l (by simp [hl]))

theorem stripChars_idem (l : List Char) :
    stripChars (stripChars l) = stripChars l := by
  unfold stripChars
  have h1 : List.dropWhile isPySpace
      (List.rdropWhile isPySpace (List.dropWhile isPySpace l)) =
      List.rdropWhile isPySpace (List.dropWhile isPySpace l) := by
    rcases hp : List.rdropWhile isPySpace (List.dropWhile isPySpace l) with _ | ⟨a, as⟩
    · simp [List.dropWhile]
    · obtain ⟨t, ht⟩ := List.rdropWhile_prefix isPySpace (List.dropWhile isPySpace l)
      rw [hp] at ht
      have hne : List.dropWhile isPySpace l ≠ [] := by rw [← ht]; simp
      have hhead : (List.dropWhile isPySpace l).head hne = a := by
        rw [show (List.dropWhile isPySpace l).head hne =
          ((a :: as ++ t).head (by simp)) from by congr 1; exact ht.symm]
        simp
      have hpa : isPySpace a = false := by
        have := List.head_dropWhile_not isPySpace l hne
        rwa [hhead] at this
      simp [List.dropWhile, hpa]
  rw [h1, List.rdropWhile_idempotent]

theorem pyStrip_idem (s : String) : pyStrip (pyStrip s) = pyStrip s := by
  show String.mk (stripChars (stripChars s.data)) = String.mk (stripChars s.data)
  rw [stripChars_idem]

/-- Tokens put into a sentence by the reader: a stripped, non-blank line. -/
def GoodTok (t : String) : Prop := t ≠ "" ∧ pyStrip t = t

/-- Sentences put into the corpus by the reader: non-empty, good tokens. -/
def GoodSent (s : List String) : Prop := s ≠ [] ∧ ∀ t ∈ s, GoodTok t

theorem goodTok_strip (line : String) (h : pyStrip line ≠ "") :
    GoodTok (pyStrip line) :=
  ⟨h, pyStrip_idem line⟩

theorem readCorpusLoop_inv (lines : List String) :
    ∀ (corpus : List (List String)) (cur : List String),
    (∀ s ∈ corpus, GoodSent s) → (∀ t ∈ cur, GoodTok t) →
    (∀ s ∈ (readCorpusLoop corpus cur lines).1, GoodSent s) ∧
    (∀ t ∈ (readCorpusLoop corpus cur lines).2, GoodTok t) := by
  induction lines with
  | nil => intro corpus cur hc hcur; exact ⟨hc, hcur⟩
  | cons line rest ih =>
    intro corpus cur hc hcur
    by_cases h1 : pyStrip line = ""
    · by_cases h2 : cur.length > 0
      · simp only [readCorpusLoop, h1, if_true, h2, if_pos]
        refine ih (corpus ++ [cur]) [] ?_ (by simp)
        intro s hs
        rcases List.mem_append.mp hs with h | h
        · exact hc s h
        · have : s = cur := by simpa using h
          subst this
          exact ⟨List.length_pos.mp h2, hcur⟩
      · simp only [readCorpusLoop, h1, if_true, h2, if_false]
        exact ih corpus cur hc hcur
    · simp only [readCorpusLoop, h1, if_false]
      refine ih corpus (cur ++ [pyStrip line]) hc ?_
      intro t ht
      rcases List.mem_append.mp ht with h | h
      · exact hcur t h
      · have : t = pyStrip line := by simpa using h
        subst this
        exact goodTok_strip line h1


/-- One step of the loop on a blank line: flush a non-empty current
sentence and continue with an empty one. -/
theorem readCorpusLoop_blank_step (b : String) (hb : pyStrip b = "")
    (c1 : List (List String)) (cur1 : List String) (B : List String) :
    readCorpusLoop c1 cur1 (b :: B) =
      readCorpusLoop (if cur1.length > 0 then c1 ++ [cur1] else c1) [] B := by
  by_cases h : cur1.length > 0
  · simp [readCorpusLoop, hb, h]
  · have hc : cur1 = [] := by
      have : cur1.length = 0 := by omega
      exact List.length_eq_zero.mp this
    subst hc
    simp [readCorpusLoop, hb]

/-- Every sentence a `readCorpus` call appends is non-empty and made of
non-empty stripped tokens. -/
theorem readCorpus_good (lines : List String) :
    ∀ s ∈ readCorpus [] lines, GoodSent s := by
  intro s hs
  unfold readCorpus flushSentence at hs
  have hinv := readCorpusLoop_inv lines [] [] (by simp) (by simp)
  by_cases h : (readCorpusLoop [] [] lines).2.length > 0
  · rw [if_pos h] at hs
    rcases List.mem_append.mp hs with h1 | h1
    · exact hinv.1 s h1
    · have : s = (readCorpusLoop [] [] lines).2 := by simpa using h1
      subst this
      exact ⟨List.length_pos.mp h, hinv.2⟩
  · rw [if_neg h] at hs
    exact hinv.1 s hs

theorem foldl_readCorpus_factor (batches : List (List String)) :
    ∀ (pre : List (List String)),
    batches.foldl readCorpus pre = pre ++ batches.foldl readCorpus [] := by
  induction batches with
  | nil => intro pre; simp
  | cons b bs ih =>
    intro pre
    simp only [List.foldl_cons]
    rw [ih (readCorpus pre b), ih (readCorpus [] b), readCorpus_factor pre b]
    simp

theorem foldl_readCorpus_good (batches : List (List String)) :
    ∀ s ∈ batches.foldl readCorpus [], GoodSent s := by
  induction batches with
  | nil => intro s hs; simp at hs
  | cons b bs ih =>
    intro s hs
    rw [List.foldl_cons, foldl_readCorpus_factor bs (readCorpus [] b)] at hs
    rcases List.mem_append.mp hs with h | h
    · exact readCorpus_good b s h
    · exact ih s h

/-! ## Claims about the corpus reader -/

/-- C3, counterexample.  Reading the newline-terminated files with line
lists `["a"]` and `["b"]` in sequence yields the corpus `[["a"], ["b"]]`,
while reading one file whose contents are their concatenation (line list
`["a"] ++ ["b"]`) yields `[["a", "b"]]`: a sentence left in progress at the
end of the first file is flushed there, so the two corpora have different
sentence boundaries and the claimed equivalence fails. -/
theorem c3_concat_counterexample :
    readCorpus (readCorpus [] ["a"]) ["b"] = [["a"], ["b"]] ∧
    readCorpus [] (["a"] ++ ["b"]) = [["a", "b"]] := by
  constructor
  · decide
  · decide

/-- C3, amended.  Reading two corpus files in sequence produces the same
corpus as reading one stream made of the first file's lines, one blank
line, and then the second file's lines: the end of a file acts as a
sentence boundary, exactly as a blank line does.  (Plain concatenation is
equivalent only when the first file does not end inside a sentence.) -/
theorem c3_two_files_blank_separator (c : List (List String))
    (A B : List String) :
    readCorpus (readCorpus c A) B = readCorpus c (A ++ "" :: B) := by
  unfold readCorpus
  rw [readCorpusLoop_append A ("" :: B) c [],
    readCorpusLoop_blank_step "" rfl]
  rfl

/-- C4.  The corpus reader groups consecutive non-blank lines into one
sentence whose tokens are the whitespace-stripped lines, one token per raw
line; a blank line terminates the current sentence and starts a new one; a
run of non-blank lines still in progress at end of stream is appended; and
on the concrete stream `"the cat\nsat\n\ndog ran\n"` the corpus is
`[["the cat", "sat"], ["dog ran"]]`. -/
theorem c4_sentence_grouping :
    (∀ (A : List String) (b : String) (B : List String),
        (∀ l ∈ A, pyStrip l ≠ "") → pyStrip b = "" →
        readCorpus [] (A ++ b :: B) =
          (if A = [] then [] else [A.map pyStrip]) ++ readCorpus [] B) ∧
    (∀ A : List String, (∀ l ∈ A, pyStrip l ≠ "") →
        readCorpus [] A = if A = [] then [] else [A.map pyStrip]) ∧
    readCorpus [] ["the cat", "sat", "", "dog ran"] =
      [["the cat", "sat"], ["dog ran"]] := by
  refine ⟨?_, ?_, by decide⟩
  · intro A b B hA hb
    unfold readCorpus
    rw [readCorpusLoop_nonblank A (b :: B) [] [] hA, List.nil_append,
      readCorpusLoop_blank_step b hb]
    by_cases hA0 : A = []
    · subst hA0
      simp
    · have hlen : (A.map pyStrip).length > 0 := by
        cases A with
        | nil => exact absurd rfl hA0
        | cons x xs => simp
      rw [if_pos hlen, if_neg hA0]
      show readCorpus ([] ++ [A.map pyStrip]) B = _
      rw [readCorpus_factor]
      simp [readCorpus]
  · intro A hA
    unfold readCorpus
    have h := readCorpusLoop_nonblank A [] [] [] hA
    rw [List.append_nil] at h
    rw [h]
    by_cases hA0 : A = []
    · subst hA0
      simp [readCorpusLoop, flushSentence]
    · have hlen : (A.map pyStrip).length > 0 := by
        cases A with
        | nil => exact absurd rfl hA0
        | cons x xs => simp
      simp [readCorpusLoop, flushSentence, hlen, hA0]

/-- C9.  An input stream that is empty or consists only of lines stripping
to the empty string appends zero sentences to the corpus, and the reader
returns normally. -/
theorem c9_blank_only_input (corpus : List (List String))
    (lines : List String) (h : ∀ l ∈ lines, pyStrip l = "") :
    readCorpus corpus lines = corpus := by
  unfold readCorpus
  rw [readCorpusLoop_blank lines corpus h]
  simp [flushSentence]

/-- C9, witness: blank and whitespace-only lines leave the corpus as it
was. -/
theorem c9_blank_only_input_witness :
    readCorpus [["kept"]] ["", "  ", "\t"] = [["kept"]] :=
  c9_blank_only_input [["kept"]] ["", "  ", "\t"] (by decide)

/-- C10.  Invariant of the corpus built by the reader: any sequence of
`readCorpus` calls only appends sentences (the corpus passed in stays an
unchanged front of the result), and every appended sentence is a non-empty
list of non-empty tokens with no leading or trailing whitespace
(`pyStrip t = t`). -/
theorem c10_corpus_invariant (pre : List (List String))
    (batches : List (List String)) :
    batches.foldl readCorpus pre = pre ++ batches.foldl readCorpus [] ∧
    ∀ s ∈ batches.foldl readCorpus [],
      s ≠ [] ∧ ∀ t ∈ s, t ≠ "" ∧ pyStrip t = t :=
  ⟨foldl_readCorpus_factor batches pre, fun s hs => foldl_readCorpus_good batches s hs⟩

/-! ## Claims about the trainer dispatcher -/

/-- C1, counterexample.  At `--method fasttext_optimized` the optimized
branch does NOT overwrite the model the plain branch produced: the result
of the external optimized training call is discarded (never bound), so
`self.vst_model` still holds the plain-branch `gensimFastText` model (not a
`fastTextOpt` model) and `self.VST` is merely recomputed from that same
plain model.  What the claim asserts about the direction of the overwrite
is therefore false: it is the optimized branch's output that is lost. -/
theorem c1_optimized_discarded_counterexample :
    buildVector demoCorpusState demoParams (some "fasttext_optimized") demoWv =
      Except.ok
        ({ corpus := [["alpha"], ["beta"]],
           vst_model := some
             (Model.gensimFastText [["alpha"], ["beta"]] demoParams),
           VST := some (demoWv
             (Model.gensimFastText [["alpha"], ["beta"]] demoParams)) },
         [Branch.fasttext, Branch.fasttextOptimized]) ∧
    ¬ (buildVector demoCorpusState demoParams (some "fasttext_optimized")
        demoWv).toOption.map (fun r => r.1.vst_model) =
      some (some (Model.fastTextOpt demoParams.fastTextHome
        [["alpha"], ["beta"]] demoParams)) := by
  constructor
  · rfl
  · decide

/-- C1, amended.  A method string that case-insensitively contains both
"fasttext" and "optimized" does execute the plain-fastText branch and then
the optimized branch sequentially; however, the optimized branch does not
overwrite the plain branch's model — the external optimized training call's
result is discarded, and the final vector space is recomputed from the
plain branch's model, so only the plain branch contributes to the output
(the optimized branch's work is silently lost). -/
theorem c1_both_branches_plain_model_wins (st : W2VState) (p : TrainParams)
    (method : Option String) (wv : Model → VSTmap)
    (hft : methodHas method "fasttext" = true)
    (hopt : methodHas method "optimized" = true) :
    buildVector st p method wv =
      Except.ok
        ({ corpus := st.corpus,
           vst_model := some (Model.gensimFastText st.corpus p),
           VST := some (wv (Model.gensimFastText st.corpus p)) },
         (if methodHas method "word2vec" then [Branch.word2vec] else []) ++
           [Branch.fasttext, Branch.fasttextOptimized]) := by
  unfold buildVector
  by_cases hw : methodHas method "word2vec"
  · simp [hw, hft, hopt]
  · simp [hw, hft, hopt]

/-- C1, witness: the amended theorem applied at the concrete method string
`"fasttext_optimized"`. -/
theorem c1_both_branches_witness :
    buildVector demoCorpusState demoParams (some "fasttext_optimized")
        demoWv =
      Except.ok
        ({ corpus := demoCorpusState.corpus,
           vst_model := some
             (Model.gensimFastText demoCorpusState.corpus demoParams),
           VST := some (demoWv
             (Model.gensimFastText demoCorpusState.corpus demoParams)) },
         (if methodHas (some "fasttext_optimized") "word2vec" then
            [Branch.word2vec] else []) ++
           [Branch.fasttext, Branch.fasttextOptimized]) :=
  c1_both_branches_plain_model_wins demoCorpusState demoParams
    (some "fasttext_optimized") demoWv (by decide) (by decide)

/-- C2, counterexample.  With `--method` unset (and no output options) the
run completes successfully and silently: nothing is trained, the vector
space stays unset, no file event happens, and no error — configuration or
otherwise — is raised.  The same holds for an unrecognized method name.
This refutes "the program raises a configuration error rather than
silently producing an empty output". -/
theorem c2_silent_success_counterexample :
    run [] ⟨[], none⟩ (fun _ => ⟨[], none⟩) demoWv =
      ([], Except.ok initState) ∧
    run ["--method", "svm"] ⟨["x"], none⟩ (fun _ => ⟨[], none⟩) demoWv =
      ([], Except.ok { corpus := [["x"]], vst_model := none, VST := none }) := by
  constructor
  · rfl
  · rfl

/-- C2, amended.  When `--method` is unset or matches none of the
recognized substrings, no training branch runs and `buildVector` returns
the state unchanged — the vector space remains unset — without raising any
error; there is no configuration error in the program.  (Only if an output
path is then supplied does the corresponding writer fail, with an
AttributeError on the missing `VST`/`vst_model` attribute, as the writer
theorems show; with no output paths the run ends silently.) -/
theorem c2_unrecognized_method_no_training (st : W2VState) (p : TrainParams)
    (method : Option String) (wv : Model → VSTmap)
    (hw : methodHas method "word2vec" = false)
    (hf : methodHas method "fasttext" = false) :
    buildVector st p method wv = Except.ok (st, []) := by
  unfold buildVector
  simp [hw, hf]

/-- C2, witness: an unrecognized method name leaves the state unchanged. -/
theorem c2_unrecognized_method_witness :
    buildVector demoCorpusState demoParams (some "svm") demoWv =
      Except.ok (demoCorpusState, []) :=
  c2_unrecognized_method_no_training demoCorpusState demoParams (some "svm")
    demoWv (by decide) (by decide)

/-! ## Claims about the option parser -/

/-- C5.  `--fastTextHome` is declared with `type='int'` in the source, so a
filesystem path supplied as its value is rejected with an optparse usage
error, while a decimal integer is accepted and stored into the
integer-typed destination.  This contradicts the documented contract
(`--fastTextHome PATH`, "path to the FastText home directory"): the option
can never hold a path. -/
theorem c5_fastTextHome_rejects_path :
    parseArgs ["--fastTextHome", "/opt/fastText"] =
      Except.error (PyError.optparseError
        "option --fastTextHome: invalid integer value: /opt/fastText") ∧
    parseArgs ["--fastTextHome", "7"] =
      Except.ok
        ({ json := none, txt := none, bin := none, minCount := 0,
           vectSize := 300, workerNum := 2, skipGram := false,
           windowSize := 2, numIteration := 5, seed := 1, method := none,
           minNgram := 3, maxNgram := 6, bucket := 2000000,
           fastTextHome := some 7 }, []) := by
  constructor
  · rfl
  · rfl

/-! ## Claims about file-handle discipline and the writers -/

/-- Clean reads produce a trace of strictly paired open/close events. -/
theorem readCorpusFiles_clean_trace (names : List String) :
    ∀ (st : W2VState) (stdinF : PFile) (fs : String → PFile),
    (∀ n ∈ names, (fs n).readError = none) →
    (readCorpusFiles st stdinF fs names).1 =
      names.flatMap (fun n => [FileEvent.openRead n, FileEvent.close n]) := by
  induction names with
  | nil =>
    intro st stdinF fs _
    rcases h : stdinF.readError with _ | e <;> simp [readCorpusFiles, h]
  | cons fn rest ih =>
    intro st stdinF fs h
    have h0 : (fs fn).readError = none := h fn (by simp)
    simp [readCorpusFiles, h0,
      ih _ stdinF fs (fun n hn => h n (by simp [hn]))]

/-- C6, counterexample.  Two exit paths leave an acquired handle open,
because the source has no `with`/`try-finally`: (1) `writeJSON` on a
non-`.gz` path opens the file in text mode, then the write of bytes raises
TypeError — the trace holds the open but no close; (2) `readCorpusFiles`
on a stream whose read raises mid-iteration propagates the error with the
file opened and never closed. -/
theorem c6_handle_leak_counterexample :
    writeJSON jsonOnlyState (some "vectors.json") =
      ([FileEvent.openWrite "vectors.json"],
       Except.error (PyError.typeError
         "write() argument must be str, not bytes")) ∧
    readCorpusFiles initState ⟨[], none⟩
        (fun _ => ⟨["x"], some (PyError.ioError "read failed")⟩)
        ["data.txt"] =
      ([FileEvent.openRead "data.txt"],
       Except.error (PyError.ioError "read failed")) := by
  constructor
  · rfl
  · rfl

/-- C6, amended.  File handles are guaranteed closed only on the exit paths
that do not raise: when every named corpus file reads cleanly the reader's
trace is exactly open/close pairs in order; the text writer with a trained
vector space opens, writes and closes its file; and the JSON writer closes
its file on the (gzip) path on which its write succeeds.  On a raising
path the handle is left open (see the counterexample). -/
theorem c6_close_on_clean_paths (st : W2VState) (stdinF : PFile)
    (fs : String → PFile) (names : List String) (vst : VSTmap)
    (fn gz : String)
    (hclean : ∀ n ∈ names, (fs n).readError = none)
    (hvst : st.VST = some vst)
    (hgz : pyEndsWith gz ".gz" = true) :
    (readCorpusFiles st stdinF fs names).1 =
      names.flatMap (fun n => [FileEvent.openRead n, FileEvent.close n]) ∧
    writeTxt st (some fn) =
      ([FileEvent.openWrite fn] ++
        vst.flatMap (fun kv =>
          [FileEvent.write fn (PyData.str kv.1),
           FileEvent.write fn (PyData.str "\t"),
           FileEvent.write fn (PyData.reprOfVec kv.2),
           FileEvent.write fn (PyData.str "\n")]) ++
        [FileEvent.close fn], Except.ok ()) ∧
    writeJSON st (some gz) =
      ([FileEvent.openGzipWrite gz,
        FileEvent.write gz (PyData.jsonBytes vst),
        FileEvent.close gz], Except.ok ()) := by
  refine ⟨readCorpusFiles_clean_trace names st stdinF fs hclean, ?_, ?_⟩
  · simp [writeTxt, hvst]
  · simp [writeJSON, hvst, hgz]

/-- C6, witness: the amended closure guarantees at concrete inputs. -/
theorem c6_close_on_clean_paths_witness :
    (readCorpusFiles demoTrainedState ⟨[], none⟩ (fun _ => ⟨["x"], none⟩)
        ["d1", "d2"]).1 =
      (["d1", "d2"] : List String).flatMap
        (fun n => [FileEvent.openRead n, FileEvent.close n]) ∧
    writeTxt demoTrainedState (some "out.txt") =
      ([FileEvent.openWrite "out.txt"] ++
        ([("alpha", [1, 2]), ("beta", [3, 4])] : VSTmap).flatMap
          (fun kv =>
            [FileEvent.write "out.txt" (PyData.str kv.1),
             FileEvent.write "out.txt" (PyData.str "\t"),
             FileEvent.write "out.txt" (PyData.reprOfVec kv.2),
             FileEvent.write "out.txt" (PyData.str "\n")]) ++
        [FileEvent.close "out.txt"], Except.ok ()) ∧
    writeJSON demoTrainedState (some "out.json.gz") =
      ([FileEvent.openGzipWrite "out.json.gz",
        FileEvent.write "out.json.gz"
          (PyData.jsonBytes [("alpha", [1, 2]), ("beta", [3, 4])]),
        FileEvent.close "out.json.gz"], Except.ok ()) :=
  c6_close_on_clean_paths demoTrainedState ⟨[], none⟩
    (fun _ => ⟨["x"], none⟩) ["d1", "d2"]
    [("alpha", [1, 2]), ("beta", [3, 4])] "out.txt" "out.json.gz"
    (fun _ _ => rfl) rfl (by decide)

/-- C7.  The JSON writer cannot write a plain (non-gzip) file at all: a
path not ending in `.gz` is opened in text mode and the single write hands
it the BYTES `json.dumps(self.VST).encode('UTF-8')`, raising TypeError
before anything is emitted (and leaking the handle).  Only on a `.gz` path
does the writer emit the single JSON object (as compressed bytes) and
close the file.  So "emits a single JSON object ... gzip-compressed
exactly when the output path ends in .gz" fails on every non-gz path: the
claim describes the documented intent, the code has a bytes-into-text-mode
slip. -/
theorem c7_writeJSON_text_mode_crash :
    writeJSON jsonOnlyState (some "out.json") =
      ([FileEvent.openWrite "out.json"],
       Except.error (PyError.typeError
         "write() argument must be str, not bytes")) ∧
    writeJSON jsonOnlyState (some "out.json.gz") =
      ([FileEvent.openGzipWrite "out.json.gz",
        FileEvent.write "out.json.gz" (PyData.jsonBytes [("alpha", [1, 2])]),
        FileEvent.close "out.json.gz"], Except.ok ()) := by
  constructor
  · rfl
  · rfl

/-- C8.  Each writer touches its output file exactly when its own path
option was supplied: with only `--txt` the writer phase opens, fills and
closes the text file and performs no JSON or binary event at all; a writer
whose option is absent returns at once with no event; and when supplied,
the text writer's first event opens its own file and the binary writer
saves to its own file. -/
theorem c8_writers_iff_paths (st : W2VState) (vst : VSTmap) (m : Model)
    (p : String)
    (hvst : st.VST = some vst) (hm : st.vst_model = some m) :
    runWriters st none (some p) none =
      ([FileEvent.openWrite p] ++
        vst.flatMap (fun kv =>
          [FileEvent.write p (PyData.str kv.1),
           FileEvent.write p (PyData.str "\t"),
           FileEvent.write p (PyData.reprOfVec kv.2),
           FileEvent.write p (PyData.str "\n")]) ++
        [FileEvent.close p], Except.ok ()) ∧
    writeJSON st none = ([], Except.ok ()) ∧
    writeTxt st none = ([], Except.ok ()) ∧
    writeBin st none = ([], Except.ok ()) ∧
    (writeTxt st (some p)).1.head? = some (FileEvent.openWrite p) ∧
    writeBin st (some p) = ([FileEvent.modelSave p], Except.ok ()) := by
  refine ⟨?_, rfl, rfl, rfl, ?_, ?_⟩
  · simp [runWriters, writeJSON, writeTxt, writeBin, hvst]
  · simp [writeTxt, hvst]
  · simp [writeBin, hm]

/-- C8, witness: a run phase given only a text path at a trained state. -/
theorem c8_writers_iff_paths_witness :
    runWriters demoTrainedState none (some "only.txt") none =
      ([FileEvent.openWrite "only.txt"] ++
        ([("alpha", [1, 2]), ("beta", [3, 4])] : VSTmap).flatMap
          (fun kv =>
            [FileEvent.write "only.txt" (PyData.str kv.1),
             FileEvent.write "only.txt" (PyData.str "\t"),
             FileEvent.write "only.txt" (PyData.reprOfVec kv.2),
             FileEvent.write "only.txt" (PyData.str "\n")]) ++
        [FileEvent.close "only.txt"], Except.ok ()) ∧
    writeJSON demoTrainedState none = ([], Except.ok ()) ∧
    writeTxt demoTrainedState none = ([], Except.ok ()) ∧
    writeBin demoTrainedState none = ([], Except.ok ()) ∧
    (writeTxt demoTrainedState (some "only.txt")).1.head? =
      some (FileEvent.openWrite "only.txt") ∧
    writeBin demoTrainedState (some "only.txt") =
      ([FileEvent.modelSave "only.txt"], Except.ok ()) :=
  c8_writers_iff_paths demoTrainedState
    [("alpha", [1, 2]), ("beta", [3, 4])]
    (Model.gensimWord2Vec [["alpha"], ["beta"]] demoParams) "only.txt"
    rfl rfl

end Contes
